import Mathlib

/-!
Verification development for the `HesburgerApiService` of the AngularJS/Angular
restaurant-ordering frontend.  The service (authentication token lifecycle,
authenticated request wrapper, response normalisation, cart store and order
submission adapter) is shallowly embedded below: every definition mirrors the
corresponding TypeScript function; JavaScript numbers are modelled as `ℚ`
(all arithmetic appearing in the service is exact on the reals), machine
epoch-times as `ℕ`, dynamically-typed fields as `Option JsVal`, and each use
of `Math.random()` becomes an explicit parameter.
-/

namespace Hesburger

/-- Model of a dynamically typed JavaScript field value (the shapes that the
service's `typeof` tests distinguish). A missing / `undefined` / `null` field
is modelled as `none` at the use site. -/
inductive JsVal where
  | num (q : ℚ)
  | str (s : String)
  | boolv (b : Bool)
  deriving DecidableEq, Repr

/-- JavaScript string truthiness for an optional string field:
`undefined`, `null` and `""` are falsy. -/
def jsStrTruthy : Option String → Bool
  | none => false
  | some s => s ≠ ""

/-- JS `a || b` for optional strings where the result is again used as a string
(`String(x || '')` style): first truthy operand, else the second coerced with
default `""`. -/
def jsStrOr (a : Option String) (b : String) : String :=
  match a with
  | some s => if s = "" then b else s
  | none => b

/-- JS `a || b` where both operands are optional strings and the result keeps
the second operand as-is when the first is falsy. -/
def jsStrOrOpt (a b : Option String) : Option String :=
  match a with
  | some s => if s = "" then b else some s
  | none => b

/-- JS `a || d` for an optional JavaScript number (`0` is falsy). -/
def jsNumOr (a : Option ℚ) (d : ℚ) : ℚ :=
  match a with
  | some q => if q = 0 then d else q
  | none => d

/-- JS `a || d` for an optional natural-number field (`0` is falsy). -/
def jsNatOr (a : Option Nat) (d : Nat) : Nat :=
  match a with
  | some n => if n = 0 then d else n
  | none => d

/-- ASCII lower-casing of one character, the fragment of JavaScript
`toLowerCase()` relevant to the service's keyword matching. -/
def jsCharLower (c : Char) : Char :=
  if 'A' ≤ c ∧ c ≤ 'Z' then Char.ofNat (c.toNat + 32) else c

/-- Model of JavaScript `String.prototype.toLowerCase` (ASCII fragment). -/
def jsToLower (s : String) : String :=
  ⟨s.toList.map jsCharLower⟩

/-- Model of JavaScript `String.prototype.includes`: `sub` occurs as a
contiguous substring of `s`. -/
def jsIncludes (s sub : String) : Bool :=
  (s.toList.tails).any (fun t => sub.toList.isPrefixOf t)

/-- Model of JavaScript `String.prototype.startsWith`. -/
def jsStartsWith (s targetStr : String) : Bool :=
  targetStr.toList.isPrefixOf s.toList

/-- Model of JavaScript `String.prototype.trim` (whitespace at both ends). -/
def jsTrim (s : String) : String :=
  ⟨((s.toList.dropWhile Char.isWhitespace).reverse.dropWhile Char.isWhitespace).reverse⟩

/-- JavaScript `Math.round`: round half towards positive infinity. -/
def jsRound (q : ℚ) : ℤ := ⌊q + 1/2⌋

/-- JS `Math.round(q * 100) / 100` — the two-decimal rounding used throughout
the price extraction code. -/
def round2 (q : ℚ) : ℚ := (jsRound (q * 100) : ℚ) / 100

/-- Decimal digits of a natural number, most significant first: model of
JavaScript `Number.prototype.toString()` for a non-negative integer. -/
def natDigits (n : Nat) : List Char :=
  if h : n < 10 then [Char.ofNat (48 + n)]
  else natDigits (n / 10) ++ [Char.ofNat (48 + n % 10)]
decreasing_by exact Nat.div_lt_self (by omega) (by omega)

/-- JS `Number.prototype.toString()` for a natural number. -/
def natToStr (n : Nat) : String := ⟨natDigits n⟩

/-- JavaScript `s.slice(-6)` on a character list: the last six characters
(the whole string when shorter). -/
def jsSliceLast6 (l : List Char) : List Char := l.drop (l.length - 6)

/-- JavaScript `s.padStart(3, '0')`. -/
def padStart3 (l : List Char) : List Char := List.replicate (3 - l.length) '0' ++ l

/-- Errors travelling through the RxJS pipelines: an HTTP error response
carrying a status code, or a plain `Error` thrown by application code
(plain errors have no `status` field). -/
inductive JsError where
  | http (status : Nat)
  | plain (msg : String)
  deriving DecidableEq, Repr

/-- JS `error.status` — `undefined` (`none`) on a plain `Error`. -/
def JsError.status : JsError → Option Nat
  | .http s => some s
  | .plain _ => none

/-! ## Token lifecycle predicates (source: `isTokenStillValid`, `isTokenNearExpiry`) -/

/-- Source `isTokenStillValid()`:
`if (!this.authToken) return false; return Date.now() < this.tokenExpiryTime;`.
`!authToken` is true for `null` and for the empty string. -/
def isTokenStillValid (authToken : Option String) (tokenExpiryTime now : Nat) : Bool :=
  if jsStrTruthy authToken = false then false
  else decide (now < tokenExpiryTime)

/-- Source `isTokenNearExpiry()`:
`if (!this.authToken) return false; return now + 2*60*1000 >= this.tokenExpiryTime;`. -/
def isTokenNearExpiry (authToken : Option String) (tokenExpiryTime now : Nat) : Bool :=
  if jsStrTruthy authToken = false then false
  else decide (now + 2 * 60 * 1000 ≥ tokenExpiryTime)

/-! ## Token lifecycle manager: operational model for refresh coalescing

The service state consists of `authToken`, `tokenExpiryTime`, the
`isRefreshingToken` flag and the `refreshTokenSubject`, an RxJS
`BehaviorSubject<boolean>` created with initial value `false`.  The essential
`BehaviorSubject` semantics: a new subscriber synchronously receives the
subject's *current* value before any later `next` emission. -/

/-- Mutable state of the `HesburgerApiService` token lifecycle manager.
`loginCallsIssued` counts the `POST /login` HTTP requests started, to state
the coalescing property. -/
structure TLMState where
  authToken : Option String
  tokenExpiryTime : Nat
  isRefreshingToken : Bool
  /-- current value of `refreshTokenSubject` (`BehaviorSubject<boolean>(false)`). -/
  refreshSubjectVal : Bool
  loginCallsIssued : Nat
  deriving DecidableEq, Repr

/-- Fresh service state: no token, `BehaviorSubject` initialised with `false`. -/
def TLMState.initial : TLMState :=
  { authToken := none, tokenExpiryTime := 0, isRefreshingToken := false
    refreshSubjectVal := false, loginCallsIssued := 0 }

/-- What a caller of `ensureAuthenticated` observes. -/
inductive CallerStatus where
  | resolved
  | failed
  /-- subscribed to the in-flight `login()` HTTP call and awaiting its outcome. -/
  | pendingLogin
  deriving DecidableEq, Repr

/-- Regex `^Bearer\s+` removal followed by `.trim()`
(source `setAuthToken`: `token.replace(/^Bearer\s+/i, '').trim()`). -/
def cleanAuthToken (s : String) : String :=
  let l := s.toList
  let rest :=
    if (l.take 6).map jsCharLower = ['b', 'e', 'a', 'r', 'e', 'r']
        ∧ ((l.drop 6).headD 'x').isWhitespace
    then (l.drop 6).dropWhile Char.isWhitespace
    else l
  jsTrim ⟨rest⟩

/-- Synchronous part of `ensureAuthenticated()` executed when a caller's
observable is subscribed at epoch time `now`:

* valid token → `of(true)`: the caller proceeds (`resolved`);
* refresh in flight → the caller subscribes to `refreshTokenSubject`; the
  `BehaviorSubject` synchronously replays its current value `v`, and
  `switchMap` turns it into `of(true)` when `v && isTokenStillValid()` holds
  and into `throwError('Token refresh failed')` otherwise (an error ends the
  subscription, so the caller settles on this replayed value);
* otherwise → `refreshToken()`: sets `isRefreshingToken`, clears the token
  (`clearToken()`) and issues `login()`; the caller awaits that HTTP call. -/
def ensureAuthenticatedStep (st : TLMState) (now : Nat) : TLMState × CallerStatus :=
  if isTokenStillValid st.authToken st.tokenExpiryTime now then
    (st, .resolved)
  else if st.isRefreshingToken then
    if st.refreshSubjectVal ∧ isTokenStillValid st.authToken st.tokenExpiryTime now then
      (st, .resolved)
    else
      (st, .failed)
  else
    ({ st with authToken := none, tokenExpiryTime := 0,
               isRefreshingToken := true,
               loginCallsIssued := st.loginCallsIssued + 1 },
     .pendingLogin)

/-- Processing of the `login()` HTTP outcome (`tokenFound` is the result of
`extractTokenFromResponse`).  On success (`map` branch): `setAuthToken`
stores the cleaned token with expiry `now + 23h`, clears `isRefreshingToken`
and broadcasts `next(true)`.  On no-token or transport failure (`catchError`
branch): clears `isRefreshingToken` and broadcasts `next(false)`.  The
returned `Bool` is whether the login observable succeeded. -/
def loginResponseStep (st : TLMState) (now : Nat) (tokenFound : Option String) :
    TLMState × Bool :=
  match tokenFound with
  | some tok =>
    ({ st with authToken := some (cleanAuthToken tok),
               tokenExpiryTime := now + 23 * 60 * 60 * 1000,
               isRefreshingToken := false,
               refreshSubjectVal := true },
     true)
  | none =>
    ({ st with isRefreshingToken := false, refreshSubjectVal := false }, false)

/-- Final status of a caller once the in-flight login settles: a caller
subscribed to the login observable resolves iff the login succeeded; callers
already settled keep their status. -/
def settleCaller (s : CallerStatus) (loginOk : Bool) : CallerStatus :=
  match s with
  | .pendingLogin => if loginOk then .resolved else .failed
  | s => s

/-! ## Authenticated request wrapper (source: `makeAuthenticatedRequest`) -/

/-- Observable trace of one `makeAuthenticatedRequest` execution:
the settled result, the number of times `requestFn` was invoked, and the
number of `refreshToken()` calls made by the 401 handler. -/
structure AuthReqTrace (α : Type) where
  result : Except JsError α
  requestCalls : Nat
  refreshCalls : Nat

/-- Source `makeAuthenticatedRequest(requestFn)`:

```
ensureAuthenticated().pipe(
  switchMap(() => requestFn()),
  catchError(error => {
    if (error.status === 401 && !this.isRefreshingToken)
      return this.refreshToken().pipe(
        switchMap(() => requestFn()),
        catchError(retryError => throwError(() => retryError)));
    return throwError(() => error); }))
```

The suspension outcomes are explicit parameters: `authOutcome` is the result
of `ensureAuthenticated()`, `firstReq`/`retryReq` the outcomes of the two
possible `requestFn()` invocations, `refreshOutcome` the outcome of the
forced `refreshToken()`, and `refreshingAtError` the value of
`isRefreshingToken` at the instant the error reaches `catchError`. -/
def makeAuthenticatedRequest {α : Type}
    (authOutcome : Except JsError Unit)
    (firstReq : Except JsError α)
    (refreshingAtError : Bool)
    (refreshOutcome : Except JsError Unit)
    (retryReq : Except JsError α) : AuthReqTrace α :=
  let upstream : Except JsError α × Nat :=
    match authOutcome with
    | .error e => (.error e, 0)
    | .ok _ => (firstReq, 1)
  match upstream with
  | (.ok v, n) => ⟨.ok v, n, 0⟩
  | (.error e, n) =>
    if e.status = some 401 ∧ refreshingAtError = false then
      match refreshOutcome with
      | .error re => ⟨.error re, n, 1⟩
      | .ok _ => ⟨retryReq, n + 1, 1⟩
    else ⟨.error e, n, 0⟩

/-! ## Cart store (source: `addToCart`, `removeFromCart`, `updateCartQuantity`,
`getCartTotal`, `getCartItemCount`) -/

/-- The slice of the normalised `Product` model that the cart operations read
(`id` for merge identity, `price` for totals; the remaining normalised fields
are carried through the spread `{...product}` unchanged and are irrelevant to
the cart algebra). -/
structure CartProduct where
  id : Nat
  name : String
  price : ℚ
  deriving DecidableEq, Repr

/-- A cart line: the product plus `quantity` and `addedAt` (source
`CartItem extends Product`). -/
structure CartItem where
  product : CartProduct
  quantity : ℤ
  addedAt : Option Nat
  deriving DecidableEq, Repr

/-- One cart mutation together with its observable effects: the resulting
cart value, the list of states published on `cartSubject` (source
`cartSubject.next(...)`), and the list of snapshots written to persistent
storage (source `saveCartToStorage()`), in order. -/
structure CartOpResult where
  cart : List CartItem
  published : List (List CartItem)
  saved : List (List CartItem)
  deriving DecidableEq, Repr

/-- JS `currentCart.find(item => item.id === product.id)` followed by
`existingItem.quantity += quantity`: bump the quantity of the first line
whose product id matches. -/
def bumpFirstQty : List CartItem → Nat → ℤ → List CartItem
  | [], _, _ => []
  | it :: rest, pid, q =>
    if it.product.id = pid then { it with quantity := it.quantity + q } :: rest
    else it :: bumpFirstQty rest pid q

/-- JS `item.quantity = quantity` on the first line found for `pid`. -/
def setFirstQty : List CartItem → Nat → ℤ → List CartItem
  | [], _, _ => []
  | it :: rest, pid, q =>
    if it.product.id = pid then { it with quantity := q } :: rest
    else it :: setFirstQty rest pid q

/-- Source `addToCart(product, quantity = 1)`: merge into the existing line
by product id, or append a fresh line with `addedAt = new Date()`; then
publish the new cart and persist it. -/
def addToCart (cart : List CartItem) (now : Nat) (p : CartProduct) (quantity : ℤ) :
    CartOpResult :=
  if cart.any (fun it => it.product.id = p.id) then
    let newCart := bumpFirstQty cart p.id quantity
    ⟨newCart, [newCart], [newCart]⟩
  else
    let newCart := cart ++ [⟨p, quantity, some now⟩]
    ⟨newCart, [newCart], [newCart]⟩

/-- Source `removeFromCart(productId)`: drop every line with that id, publish
and persist. -/
def removeFromCart (cart : List CartItem) (productId : Nat) : CartOpResult :=
  let newCart := cart.filter (fun it => it.product.id ≠ productId)
  ⟨newCart, [newCart], [newCart]⟩

/-- Source `updateCartQuantity(productId, quantity)`: if no line matches the
id, nothing at all happens (no publish, no storage write); with a matching
line, `quantity <= 0` delegates to `removeFromCart`, otherwise the line's
quantity is set, the cart published and persisted. -/
def updateCartQuantity (cart : List CartItem) (productId : Nat) (quantity : ℤ) :
    CartOpResult :=
  if cart.any (fun it => it.product.id = productId) then
    if quantity ≤ 0 then removeFromCart cart productId
    else
      let newCart := setFirstQty cart productId quantity
      ⟨newCart, [newCart], [newCart]⟩
  else
    ⟨cart, [], []⟩

/-- Source `getCartTotal()`: `reduce((total, item) => total + item.price * item.quantity, 0)`. -/
def getCartTotal (cart : List CartItem) : ℚ :=
  cart.foldl (fun total it => total + it.product.price * (it.quantity : ℚ)) 0

/-- Source `getCartItemCount()`: `reduce((count, item) => count + item.quantity, 0)`. -/
def getCartItemCount (cart : List CartItem) : ℤ :=
  cart.foldl (fun count it => count + it.quantity) 0

/-! ## Response normalizer: raw API product model -/

/-- One entry of a raw `locationPrices` array, with the dynamically typed
fields the service inspects. -/
structure LocRec where
  locationUid : Option String := none
  locationName : Option String := none
  unitPriceWithVat : Option JsVal := none
  price : Option JsVal := none
  unitPrice : Option JsVal := none
  isActive : Option Bool := none
  deriving DecidableEq, Repr

/-- Raw API product payload: exactly the fields the normalisation code reads.
A list element of `locationPrices` that is `null`/`undefined` is `none`.
`locationPrices := none` models an absent or non-array value (the code always
guards it with `Array.isArray`). -/
structure ApiProduct where
  id : Option Nat := none
  productId : Option Nat := none
  uid : Option String := none
  name : Option String := none
  title : Option String := none
  productName : Option String := none
  description : Option String := none
  productDescription : Option String := none
  «alias» : Option String := none
  category : Option String := none
  categoryName : Option String := none
  categoryId : Option Nat := none
  productCategoryUid : Option String := none
  categoryUid : Option String := none
  imageUid : Option String := none
  image : Option String := none
  imageUrl : Option String := none
  salesCount : Option ℚ := none
  popularity : Option ℚ := none
  isAvailable : Option Bool := none
  available : Option Bool := none
  status : Option String := none
  inStock : Option Bool := none
  isActive : Option Bool := none
  isDisabled : Option Bool := none
  stock : Option JsVal := none
  quantity : Option JsVal := none
  locationPrices : Option (List (Option LocRec)) := none
  unitPriceWithVat : Option JsVal := none
  price : Option JsVal := none
  unitPrice : Option JsVal := none
  cost : Option JsVal := none
  amount : Option JsVal := none
  basePrice : Option JsVal := none
  deriving DecidableEq, Repr

/-- The explicit `Math.random()` draws consumed while normalising a single
product (`transformProduct` / its helpers). -/
structure Rand where
  /-- JS `Math.floor(Math.random() * 10000)` fallback for the product id. -/
  idR : Nat := 0
  /-- JS `Math.random()` inside `generateCategoryBasedPrice`. -/
  priceR : ℚ := 0
  /-- JS `Math.random()` inside `determinePopularity`. -/
  popR : ℚ := 0
  /-- JS `Math.floor(Math.random() * 1000)` fallback id in `generateCategoryBasedImageUrl`. -/
  imgIdR : Nat := 0
  deriving DecidableEq, Repr

/-- JS `typeof v === 'number' && v > 0`: the guard the price code applies to
every numeric candidate; returns the value when it passes. -/
def posNum (v : Option JsVal) : Option ℚ :=
  match v with
  | some (.num q) => if 0 < q then some q else none
  | _ => none

/-- JS `typeof v === 'number' && v <= 0` (the stock/quantity availability guards). -/
def numLeZero (v : Option JsVal) : Bool :=
  match v with
  | some (.num q) => decide (q ≤ 0)
  | _ => false

/-- Model of JavaScript `parseFloat` restricted to plain decimal literals:
leading whitespace, optional sign, integer digits, optional fraction; `none`
when no digit can be read (`NaN`). -/
def jsParseFloat (s : String) : Option ℚ :=
  let l := s.toList.dropWhile Char.isWhitespace
  let signRest : ℚ × List Char :=
    match l with
    | '-' :: rest => (-1, rest)
    | '+' :: rest => (1, rest)
    | _ => (1, l)
  let intPart := signRest.2.takeWhile Char.isDigit
  let afterInt := signRest.2.dropWhile Char.isDigit
  let fracPart :=
    match afterInt with
    | '.' :: r => r.takeWhile Char.isDigit
    | _ => []
  if intPart = [] ∧ fracPart = [] then none
  else
    let digitsVal : List Char → Nat := fun ds => ds.foldl (fun a c => a * 10 + (c.toNat - 48)) 0
    some (signRest.1 * ((digitsVal intPart : ℚ) + (digitsVal fracPart : ℚ) / (10 ^ fracPart.length)))

/-! ## Category mapping (source: `mapApiCategory`) -/

/-- The concatenated `name + ' ' + category + ' ' + alias` search text,
lower-cased (source `mapApiCategory`, first four lines). -/
def categorySearchText (p : ApiProduct) : String :=
  let name := jsToLower (jsStrOr p.name "")
  let category := jsToLower (jsStrOr p.category (jsStrOr p.categoryName ""))
  let aliasTxt := jsToLower (jsStrOr p.«alias» "")
  name ++ " " ++ category ++ " " ++ aliasTxt

/-- The burgers keyword test of `mapApiCategory`. -/
def burgersKw (st : String) : Bool :=
  jsIncludes st "burger" || jsIncludes st "big mac" || jsIncludes st "whopper"

/-- The chicken keyword test of `mapApiCategory`. -/
def chickenKw (st : String) : Bool :=
  jsIncludes st "chicken" || jsIncludes st "wing" || jsIncludes st "nugget"

/-- The sides keyword test of `mapApiCategory`. -/
def sidesKw (st : String) : Bool :=
  jsIncludes st "fries" || jsIncludes st "ring" || jsIncludes st "onion" || jsIncludes st "potato"

/-- The drinks keyword test of `mapApiCategory`. -/
def drinksKw (st : String) : Bool :=
  jsIncludes st "cola" || jsIncludes st "drink" || jsIncludes st "juice" || jsIncludes st "coffee" || jsIncludes st "tea"

/-- The desserts keyword test of `mapApiCategory`. -/
def dessertsKw (st : String) : Bool :=
  jsIncludes st "ice cream" || jsIncludes st "dessert" || jsIncludes st "cake" || jsIncludes st "pie"

/-- Source `mapApiCategory(apiProduct)`: keyword search in fixed order over
the search text, defaulting to `'other'`. -/
def mapApiCategory (p : ApiProduct) : String :=
  let st := categorySearchText p
  if burgersKw st then "burgers"
  else if chickenKw st then "chicken"
  else if sidesKw st then "sides"
  else if drinksKw st then "drinks"
  else if dessertsKw st then "desserts"
  else "other"

/-! ## Price extraction (source: `extractPriceEnhanced`, `generateCategoryBasedPrice`) -/

/-- The `[min, max]` base price range per category
(source `basePrices` map, with the `|| basePrices['other']` default). -/
def basePricesFor (c : String) : ℚ × ℚ :=
  if c = "burgers" then (15, 35)
  else if c = "chicken" then (12, 28)
  else if c = "sides" then (8, 18)
  else if c = "drinks" then (5, 12)
  else if c = "desserts" then (6, 15)
  else (10, 25)

/-- Source `generateCategoryBasedPrice(apiProduct)` with the `Math.random()`
draw `r` made explicit: a value in the category's range scaled by the
name-derived multiplier, rounded to two decimals.  The three multiplier `if`
statements are sequential assignments, so a later match overrides an
earlier one. -/
def generateCategoryBasedPrice (r : ℚ) (p : ApiProduct) : ℚ :=
  let category := mapApiCategory p
  let name := jsToLower (jsStrOr p.name "")
  let range := basePricesFor category
  let m1 : ℚ := if jsIncludes name "large" || jsIncludes name "big" || jsIncludes name "xl" then 13/10 else 1
  let m2 : ℚ := if jsIncludes name "small" || jsIncludes name "mini" then 7/10 else m1
  let multiplier : ℚ := if jsIncludes name "premium" || jsIncludes name "deluxe" || jsIncludes name "special" then 3/2 else m2
  let basePrice := r * (range.2 - range.1) + range.1
  round2 (basePrice * multiplier)

/-- The per-entry scan of the `locationPrices` array in `extractPriceEnhanced`
(priority 1): first entry with a positive numeric `unitPriceWithVat`, else
with a positive numeric `price`; a `null` entry is skipped by the
`locationPrice &&` guard. -/
def locScan : List (Option LocRec) → Option ℚ
  | [] => none
  | none :: rest => locScan rest
  | some lp :: rest =>
    match posNum lp.unitPriceWithVat with
    | some q => some q
    | none =>
      match posNum lp.price with
      | some q => some q
      | none => locScan rest

/-- One candidate of the priority-3 field scan: a positive number, or a
string whose `parseFloat` is a non-`NaN` positive number. -/
def fieldPosVal (v : Option JsVal) : Option ℚ :=
  match v with
  | some (.num q) => if 0 < q then some q else none
  | some (.str s) =>
    match jsParseFloat s with
    | some q => if 0 < q then some q else none
    | none => none
  | _ => none

/-- Priority 3 of `extractPriceEnhanced`: the fields
`['price', 'unitPrice', 'cost', 'amount', 'basePrice']` in order. -/
def priceFieldsScan (p : ApiProduct) : Option ℚ :=
  (fieldPosVal p.price).orElse fun _ =>
  (fieldPosVal p.unitPrice).orElse fun _ =>
  (fieldPosVal p.cost).orElse fun _ =>
  (fieldPosVal p.amount).orElse fun _ =>
  fieldPosVal p.basePrice

/-- Priorities 2–4 of `extractPriceEnhanced` (run when the location-price
scan produced nothing): product-level `unitPriceWithVat`, then the direct
price fields, then the category-based fallback. -/
def extractPriceTail (r : ℚ) (p : ApiProduct) : ℚ :=
  match posNum p.unitPriceWithVat with
  | some q => round2 q
  | none =>
    match priceFieldsScan p with
    | some q => round2 q
    | none => generateCategoryBasedPrice r p

/-- Source `extractPriceEnhanced(apiProduct)` (random draw `r` explicit):
priority 1 scans a present non-empty `locationPrices` array; any hit is
returned two-decimal rounded; otherwise priorities 2–4 apply. -/
def extractPriceEnhanced (r : ℚ) (p : ApiProduct) : ℚ :=
  match p.locationPrices with
  | some lps =>
    if lps = [] then extractPriceTail r p
    else
      match locScan lps with
      | some q => round2 q
      | none => extractPriceTail r p
  | none => extractPriceTail r p

/-! ## Remaining field extractors used by `transformProduct` -/

/-- Characters kept by the regex replace `/[^\w\s\-.,!?]/g` in
`extractDescription`: word characters, whitespace and `- . , ! ?`. -/
def descKeepChar (c : Char) : Bool :=
  decide ('a' ≤ c ∧ c ≤ 'z') || decide ('A' ≤ c ∧ c ≤ 'Z')
  || decide ('0' ≤ c ∧ c ≤ '9') || c == '_' || c.isWhitespace
  || c == '-' || c == '.' || c == ',' || c == '!' || c == '?'

/-- The template literal `` `Delicious ${apiProduct.name}` `` (a missing name
interpolates as the string `"undefined"`). -/
def deliciousName (p : ApiProduct) : String :=
  "Delicious " ++ (match p.name with | some s => s | none => "undefined")

/-- Source `extractDescription(apiProduct)`: fallback chain, then the regex
character filter and `trim()`. -/
def extractDescription (p : ApiProduct) : String :=
  let d := jsStrOr p.description (jsStrOr p.productDescription (jsStrOr p.«alias» (deliciousName p)))
  jsTrim ⟨d.toList.filter descKeepChar⟩

/-- The detected image source kind (source `getImageSource`). -/
inductive ImageSource where
  | fromImageUid (v : String)
  | base64 (v : String)
  | directUrl (v : String)
  | fallbackImg
  deriving DecidableEq, Repr

/-- Priority 3 of `getImageSource`: the `imageUrl` field. -/
def getImageSourceFromUrl (p : ApiProduct) : ImageSource :=
  match p.imageUrl with
  | some s =>
    if s ≠ "" then
      if jsStartsWith s "data:image/" then .base64 s
      else if jsStartsWith s "http" then .directUrl s
      else .fallbackImg
    else .fallbackImg
  | none => .fallbackImg

/-- Priority 2 of `getImageSource`: the `image` field (base64 prefix, or a
long space-free string treated as an image uid). -/
def getImageSourceFromImage (p : ApiProduct) : ImageSource :=
  match p.image with
  | some s =>
    if s ≠ "" then
      if jsStartsWith s "data:image/" then .base64 s
      else if s.length > 20 ∧ jsIncludes s " " = false then .fromImageUid s
      else getImageSourceFromUrl p
    else getImageSourceFromUrl p
  | none => getImageSourceFromUrl p

/-- Source `getImageSource(apiProduct)`: `imageUid` longer than 10
characters, else the `image` field, else `imageUrl`, else fallback. -/
def getImageSource (p : ApiProduct) : ImageSource :=
  match p.imageUid with
  | some s => if s.length > 10 then .fromImageUid s else getImageSourceFromImage p
  | none => getImageSourceFromImage p

/-- The service's base URL constant. -/
def BaseURL : String := "https://api-staging-hesburger.freya.cloud"

/-- Source `generateCategoryBasedImageUrl`: category-keyed stock photo URL
parameterised by `apiProduct.id || Math.floor(Math.random()*1000)`. -/
def generateCategoryBasedImageUrl (imgIdR : Nat) (p : ApiProduct) : String :=
  let category := mapApiCategory p
  let sig := natToStr (jsNatOr p.id imgIdR)
  let tail := "?w=300&h=200&fit=crop&crop=center&q=80&sig=" ++ sig
  if category = "burgers" then "https://images.unsplash.com/photo-1568901346375-23c9450c58cd" ++ tail
  else if category = "chicken" then "https://images.unsplash.com/photo-1562967914-608f82629710" ++ tail
  else if category = "sides" then "https://images.unsplash.com/photo-1573080496219-bb080dd4f877" ++ tail
  else if category = "drinks" then "https://images.unsplash.com/photo-1544145945-f90425340c7e" ++ tail
  else if category = "desserts" then "https://images.unsplash.com/photo-1551024506-0bccd828d307" ++ tail
  else "https://images.unsplash.com/photo-1565299624946-b28f40a0ca4b" ++ tail

/-- Source `generateImageUrlEnhanced(apiProduct)`. -/
def generateImageUrlEnhanced (imgIdR : Nat) (p : ApiProduct) : String :=
  match getImageSource p with
  | .fromImageUid v => BaseURL ++ "/file/getImage?imageUid=" ++ v
  | .base64 v => v
  | .directUrl v => v
  | .fallbackImg => generateCategoryBasedImageUrl imgIdR p

/-- Source `determinePopularity(apiProduct)` (random draw explicit). -/
def determinePopularity (popR : ℚ) (p : ApiProduct) : Bool :=
  let name := jsToLower (jsStrOr p.name "")
  let sales := jsNumOr p.salesCount (jsNumOr p.popularity 0)
  if 100 < sales then true
  else if jsIncludes name "popular" || jsIncludes name "bestseller" || jsIncludes name "signature" then true
  else if jsIncludes name "big" || jsIncludes name "special" || jsIncludes name "deluxe" then true
  else if jsIncludes name "classic" || jsIncludes name "original" || jsIncludes name "famous" then true
  else decide (popR > 3/4)

/-- Source `extractAllergens(apiProduct)`: keyword search over
`name + ' ' + description`, collecting every matching tag. -/
def extractAllergens (p : ApiProduct) : List String :=
  let st := jsToLower (jsStrOr p.name "") ++ " " ++ jsToLower (jsStrOr p.description "")
  (if jsIncludes st "cheese" || jsIncludes st "milk" || jsIncludes st "cream" || jsIncludes st "butter" then ["Lactose"] else [])
  ++ (if jsIncludes st "bread" || jsIncludes st "burger" || jsIncludes st "bun" || jsIncludes st "flour" then ["Gluten"] else [])
  ++ (if jsIncludes st "egg" then ["Eggs"] else [])
  ++ (if jsIncludes st "nut" || jsIncludes st "almond" || jsIncludes st "peanut" then ["Nuts"] else [])
  ++ (if jsIncludes st "soy" || jsIncludes st "soja" then ["Soy"] else [])

/-- Source `estimatePreparationTime(apiProduct)`: category base minutes with
sequential name-keyword adjustments, clamped to `[1, 30]`.  (Natural-number
subtraction agrees with the JavaScript arithmetic here because the result of
`baseTime - 3` is clamped by `Math.max(1, ·)`.) -/
def estimatePreparationTime (p : ApiProduct) : Nat :=
  let category := mapApiCategory p
  let name := jsToLower (jsStrOr p.name "")
  let baseTime : Nat :=
    if category = "drinks" then 1
    else if category = "desserts" then 3
    else if category = "sides" then 5
    else if category = "chicken" then 12
    else if category = "burgers" then 8
    else 6
  let b1 := if jsIncludes name "simple" || jsIncludes name "quick" then max 1 (baseTime - 3) else baseTime
  let b2 := if jsIncludes name "special" || jsIncludes name "deluxe" || jsIncludes name "custom" then b1 + 5 else b1
  let b3 := if jsIncludes name "large" || jsIncludes name "big" || jsIncludes name "xl" then b2 + 2 else b2
  min 30 (max 1 b3)

/-- Source `checkAvailability(apiProduct)`: `false` on any explicit
negative-availability marker, else `true`. -/
def checkAvailability (p : ApiProduct) : Bool :=
  if p.isAvailable = some false then false
  else if p.available = some false then false
  else if p.status = some "unavailable" ∨ p.status = some "disabled" then false
  else if p.inStock = some false then false
  else if p.isActive = some false then false
  else if p.isDisabled = some true then false
  else if numLeZero p.stock then false
  else if numLeZero p.quantity then false
  else true

/-- Normalised location price entry (output shape of `extractLocationPrices`). -/
structure LocationPrice where
  locationUid : String
  locationName : String
  price : ℚ
  unitPrice : Option JsVal
  currency : String
  isActive : Bool
  deriving DecidableEq, Repr

/-- JS `a || b` over dynamically typed values (`0`, `""` and `false` falsy). -/
def jsValTruthy : JsVal → Bool
  | .num q => q ≠ 0
  | .str s => s ≠ ""
  | .boolv b => b

/-- JS `lp.unitPrice || lp.unitPriceWithVat`. -/
def jsValOrOpt (a b : Option JsVal) : Option JsVal :=
  match a with
  | some v => if jsValTruthy v then some v else b
  | none => b

/-- Source `extractLocationPrices(apiProduct)`: maps each entry to a
normalised `LocationPrice` and keeps the positively priced ones.  Unlike the
scan in `extractPriceEnhanced`, the `map` callback dereferences `lp` without
a null guard, so a `null` array element makes the whole transformation throw
a `TypeError` (modelled as `Except.error`). -/
def extractLocationPrices (p : ApiProduct) : Except Unit (List LocationPrice) :=
  match p.locationPrices with
  | none => .ok []
  | some lps => do
    let mapped ← lps.enum.mapM (fun ilp =>
      match ilp.2 with
      | none => .error ()
      | some lp =>
        let rawPrice : ℚ :=
          match posNum lp.unitPriceWithVat with
          | some q => q
          | none =>
            match posNum lp.price with
            | some q => q
            | none =>
              match posNum lp.unitPrice with
              | some q => q
              | none => 0
        Except.ok
          { locationUid := jsStrOr lp.locationUid ("loc_" ++ natToStr ilp.1)
            locationName := jsStrOr lp.locationName ("Location " ++ natToStr (ilp.1 + 1))
            price := round2 rawPrice
            unitPrice := jsValOrOpt lp.unitPrice lp.unitPriceWithVat
            currency := "RON"
            isActive := lp.isActive ≠ some false })
    .ok (mapped.filter (fun lp => decide (0 < lp.price)))

/-- The normalised product model produced by `transformProduct`
(the `Product` interface of the service). -/
structure Product where
  id : Nat
  uid : Option String
  name : String
  description : String
  price : ℚ
  category : String
  categoryId : Option Nat
  categoryUid : Option String
  image : String
  imageUid : Option String
  imageUrl : Option String
  isPopular : Bool
  allergens : List String
  estimatedTime : Nat
  isAvailable : Bool
  «alias» : Option String
  locationPrices : List LocationPrice
  unitPriceWithVat : Option JsVal
  rawApiData : ApiProduct
  deriving DecidableEq, Repr

/-- Source `transformProduct(apiProduct)` with the random draws explicit.
The only field whose computation can throw is `locationPrices`
(see `extractLocationPrices`); a throw aborts the whole transformation. -/
def transformProduct (rnd : Rand) (p : ApiProduct) : Except Unit Product := do
  let lps ← extractLocationPrices p
  return {
      id := jsNatOr p.id (jsNatOr p.productId rnd.idR)
      uid := p.uid
      name := jsStrOr p.name (jsStrOr p.title (jsStrOr p.productName "Unknown Product"))
      description := extractDescription p
      price := extractPriceEnhanced rnd.priceR p
      category := mapApiCategory p
      categoryId := p.categoryId
      categoryUid := jsStrOrOpt p.productCategoryUid p.categoryUid
      image := generateImageUrlEnhanced rnd.imgIdR p
      imageUid := p.imageUid
      imageUrl := p.imageUrl
      isPopular := determinePopularity rnd.popR p
      allergens := extractAllergens p
      estimatedTime := estimatePreparationTime p
      isAvailable := checkAvailability p
      «alias» := p.«alias»
      locationPrices := lps
      unitPriceWithVat := p.unitPriceWithVat
      rawApiData := p }

/-- Source `processProducts(products)`: transform each raw product (the draws
for the `i`-th product are `rng i`) and keep those with
`isAvailable !== false`. -/
def processProducts (rng : Nat → Rand) (products : List ApiProduct) :
    Except Unit (List Product) := do
  let transformed ← products.enum.mapM (fun ip => transformProduct (rng ip.1) ip.2)
  return transformed.filter (fun pr => !(pr.isAvailable == false))

/-! ## Selling-product listing (source: `getSellingProducts`) -/

/-- The shape of the `GET /Product/FindSellingProducts` response as far as
the locating code inspects it: `null`, an array of raw products, or an
object with optional `payload` / `records` / `data` members (any other
member or primitive shape behaves like an object with all three absent). -/
inductive SellResp where
  | snull
  | sarr (items : List ApiProduct)
  | sobj (payload records data : Option SellResp)

/-- JS `x?.payload`. -/
def SellResp.getPayload : SellResp → Option SellResp
  | .sobj p _ _ => p
  | _ => none

/-- JS `x?.records`. -/
def SellResp.getRecords : SellResp → Option SellResp
  | .sobj _ r _ => r
  | _ => none

/-- JS `x?.data`. -/
def SellResp.getData : SellResp → Option SellResp
  | .sobj _ _ d => d
  | _ => none

/-- JS `v && Array.isArray(v)` (an array is always truthy, even when empty). -/
def asArr : Option SellResp → Option (List ApiProduct)
  | some (.sarr xs) => some xs
  | _ => none

/-- The array-locating cascade inside `getSellingProducts`'s `map`:
`payload.records`, then `payload` itself, then the response root, then
`data`; no array-typed candidate leaves `rawProducts = []`. -/
def sellingRawProducts (response : SellResp) : List ApiProduct :=
  match asArr ((response.getPayload).bind SellResp.getRecords) with
  | some xs => xs
  | none =>
    match asArr response.getPayload with
    | some xs => xs
    | none =>
      match asArr (some response) with
      | some xs => xs
      | none =>
        match asArr response.getData with
        | some xs => xs
        | none => []

/-- The normalisation step as observed past the `retry(1)` + `catchError`
boundary: a `TypeError` thrown while transforming becomes `[]`. -/
def processProductsCaught (rng : Nat → Rand) (products : List ApiProduct) : List Product :=
  match processProducts rng products with
  | .ok l => l
  | .error _ => []

/-- Source `getSellingProducts()`, parameterised by the settled outcome of
the wrapped HTTP request.  A transport/auth error resolves to `of([])`; a
response is located and normalised (processing throws are likewise caught). -/
def getSellingProducts (rng : Nat → Rand) (outcome : Except JsError SellResp) :
    List Product :=
  match outcome with
  | .error _ => []
  | .ok resp => processProductsCaught rng (sellingRawProducts resp)

/-! ## Order submission adapter (source: `createOrder`, `processOrderResponse`,
`extractOrderData`, `createFallbackOrderResponse`, `generateOrderNumber`) -/

/-- An `id`-like dynamic value (`orderData.id` is used interchangeably with
the string `uid` by the service). -/
inductive JsId where
  | num (n : Nat)
  | str (s : String)
  deriving DecidableEq, Repr

/-- JavaScript truthiness of an id value. -/
def JsId.truthy : JsId → Bool
  | .num n => n ≠ 0
  | .str s => s ≠ ""

/-- JS `a || d` over optional id values. -/
def jsIdOr (a : Option JsId) (d : JsId) : JsId :=
  match a with
  | some i => if i.truthy then i else d
  | none => d

/-- The order-data object the service looks for inside the remote response:
the fields later read from `orderData`. -/
structure RemoteOrderData where
  id : Option JsId := none
  uid : Option String := none
  orderNumber : Option String := none
  totalAmount : Option ℚ := none
  createdAt : Option String := none
  deriving DecidableEq, Repr

/-- The remote `POST /ClientOrder/Insert` response object:
candidate containers plus the fields read when the response itself is used
as order data (`if (response.id || response.uid) return response`). -/
structure RemoteOrderResp where
  payload : Option RemoteOrderData := none
  data : Option RemoteOrderData := none
  order : Option RemoteOrderData := none
  result : Option RemoteOrderData := none
  id : Option JsId := none
  uid : Option String := none
  orderNumber : Option String := none
  totalAmount : Option ℚ := none
  createdAt : Option String := none
  isSuccess : Option Bool := none
  message : Option String := none
  deriving DecidableEq, Repr

/-- The projection of the response used when `extractOrderData` returns the
response object itself. -/
def RemoteOrderResp.selfData (r : RemoteOrderResp) : RemoteOrderData :=
  { id := r.id, uid := r.uid, orderNumber := r.orderNumber,
    totalAmount := r.totalAmount, createdAt := r.createdAt }

/-- Source `extractOrderData(response)`: `payload`, `data`, `order`,
`result`, else the response itself when it carries a truthy `id` or `uid`. -/
def extractOrderData (r : RemoteOrderResp) : Option RemoteOrderData :=
  match r.payload with
  | some d => some d
  | none =>
  match r.data with
  | some d => some d
  | none =>
  match r.order with
  | some d => some d
  | none =>
  match r.result with
  | some d => some d
  | none =>
  if (match r.id with | some i => i.truthy | none => false) || jsStrTruthy r.uid
  then some r.selfData else none

/-- Source `generateOrderNumber()`:
`'HB' + Date.now().toString().slice(-6) + Math.floor(Math.random()*1000).toString().padStart(3,'0')`. -/
def generateOrderNumber (nowMs randN : Nat) : String :=
  "HB" ++ (⟨jsSliceLast6 (natDigits nowMs)⟩ : String) ++ (⟨padStart3 (natDigits randN)⟩ : String)

/-- The `data` member of the normalised `OrderResponse`. -/
structure OrderRespData where
  id : JsId
  orderNumber : String
  status : String
  estimatedTime : Nat
  totalAmount : ℚ
  createdAt : String
  queuePosition : Option Nat
  deriving DecidableEq, Repr

/-- Normalised `OrderResponse` (the `data` member is populated on every path
the code can take, so it is modelled as always present). -/
structure OrderResponse where
  isSuccess : Bool
  data : OrderRespData
  message : String
  timestamp : String
  isOffline : Option Bool := none
  deriving DecidableEq, Repr

/-- Source `createFallbackOrderResponse()`: the synthesized offline
confirmation (`nowMs`/`randN`/`nowIso` are the `Date.now()`, random draw and
`new Date().toISOString()` values). -/
def createFallbackOrderResponse (nowMs randN : Nat) (nowIso : String) : OrderResponse :=
  { isSuccess := true
    data :=
      { id := .num nowMs
        orderNumber := generateOrderNumber nowMs randN
        status := "confirmed"
        estimatedTime := 15
        totalAmount := 0
        createdAt := nowIso
        queuePosition := none }
    message := "Order submitted successfully (offline mode)"
    timestamp := nowIso
    isOffline := some true }

/-- Source `processOrderResponse(response)`.  A `null` response makes
`extractOrderData` throw (`response.payload` on `null`), which the
surrounding `try`/`catch` converts into the fallback response.  Otherwise a
response without recognisable order data yields a success-shaped response
with a generated order number, and recognised order data is merged with
generated defaults. -/
def processOrderResponse (nowMs randN : Nat) (nowIso : String)
    (response : Option RemoteOrderResp) : OrderResponse :=
  match response with
  | none => createFallbackOrderResponse nowMs randN nowIso
  | some r =>
    match extractOrderData r with
    | none =>
      { isSuccess := true
        data :=
          { id := .num nowMs
            orderNumber := generateOrderNumber nowMs randN
            status := "confirmed"
            estimatedTime := 15
            totalAmount := 0
            createdAt := nowIso
            queuePosition := none }
        message := "Order submitted successfully"
        timestamp := nowIso }
    | some od =>
      { isSuccess := r.isSuccess ≠ some false
        data :=
          { id := jsIdOr od.id (jsIdOr (od.uid.map .str) (.num nowMs))
            orderNumber := jsStrOr od.orderNumber (generateOrderNumber nowMs randN)
            status := "confirmed"
            estimatedTime := 15
            totalAmount := jsNumOr od.totalAmount 0
            createdAt := jsStrOr od.createdAt nowIso
            queuePosition := none }
        message := jsStrOr r.message "Order placed successfully"
        timestamp := nowIso }

/-- Source `createOrder(orderData)`, parameterised by the settled outcome of
the wrapped `POST /ClientOrder/Insert` call (the request transformation does
not influence response handling).  Any failure — transport, authentication
or a processing throw — is converted by `catchError` into the fallback
response, so the observable always resolves. -/
def createOrder (nowMs randN : Nat) (nowIso : String)
    (outcome : Except JsError (Option RemoteOrderResp)) : OrderResponse :=
  match outcome with
  | .error _ => createFallbackOrderResponse nowMs randN nowIso
  | .ok resp => processOrderResponse nowMs randN nowIso resp

/-! ## Derived notions and concrete inputs used by the statements below -/

/-- The shape of a generated fallback order number: the `'HB'` prefix
followed by six digits (timestamp slice) and three digits (zero-padded
random suffix). -/
def fallbackOrderNumberForm (s : String) : Prop :=
  ∃ t u : String, s = "HB" ++ t ++ u ∧ t.length = 6 ∧ u.length = 3 ∧
    (∀ c ∈ t.toList, c.isDigit = true) ∧ (∀ c ∈ u.toList, c.isDigit = true)

/-- Joint outcome of the two-caller refresh-coalescing scenario. -/
structure CoalesceOutcome where
  finalState : TLMState
  callerA : CallerStatus
  callerB : CallerStatus
  loginSucceeded : Bool
  deriving DecidableEq, Repr

/-- The refresh-coalescing scenario: starting from a fresh service (no
stored token), caller A and caller B invoke `ensureAuthenticated` in the
same event-loop turn, then the single in-flight `login()` HTTP call succeeds
with a response carrying a usable token. -/
def coalesceScenario : CoalesceOutcome :=
  let s1 := ensureAuthenticatedStep TLMState.initial 1000
  let s2 := ensureAuthenticatedStep s1.1 1000
  let s3 := loginResponseStep s2.1 1000 (some "abcdefghijklmnopqrstuvwxyz")
  { finalState := s3.1
    callerA := settleCaller s1.2 s3.2
    callerB := settleCaller s2.2 s3.2
    loginSucceeded := s3.2 }

/-- The location-price entry of the C4 sample product
(`unitPriceWithVat = 12.345`). -/
def c4Loc : LocRec := { unitPriceWithVat := some (.num (2469/200)) }

/-- Sample product with `locationPrices[0].unitPriceWithVat = 12.345` and
top-level `price = 99`. -/
def c4Sample : ApiProduct :=
  { locationPrices := some [some c4Loc], price := some (.num 99) }

/-- Sample product payload for the category-mapping witness. -/
def c5Sample : ApiProduct := { name := some "Crispy Chicken" }

/-- The cart product `{id: 5, price: 10}` of the merge scenario. -/
def p5 : CartProduct := { id := 5, name := "P", price := 10 }

/-- A one-line cart whose only product id is `1`. -/
def c9Cart : List CartItem :=
  [{ product := { id := 1, name := "A", price := 2 }, quantity := 1, addedAt := none }]

/-- A product whose only price information is the positive value `0.001`. -/
def c10Bad : ApiProduct := { price := some (.num (1/1000)) }

/-- A raw product for the listing witness. -/
def c8Prod : ApiProduct := { name := some "Cola", price := some (.num 5) }

/-- A response whose `payload.records` member is a one-product array. -/
def c8Resp : SellResp :=
  .sobj (some (.sobj none (some (.sarr [c8Prod])) none)) none none

/-- A fixed all-zero random source. -/
def rng0 : Nat → Rand := fun _ => {}

end Hesburger


namespace Hesburger

/-! # Theorems

Helper lemmas first, then one theorem per specification claim (with its
witness or counterexample where applicable). -/

theorem bumpFirstQty_length (l : List CartItem) (pid : Nat) (q : ℤ) :
    (bumpFirstQty l pid q).length = l.length := by
  induction l with
  | nil => rfl
  | cons a as ih => unfold bumpFirstQty; split <;> simp [ih]

/-- C6 counterexample: with the (empty-string) token `""` the validity
predicate returns `false` although `now < expiry` holds, so the biconditional
claimed for all `(token, expiry)` fails. -/
theorem token_predicates_cex :
    ¬ ((isTokenStillValid (some "") 1 0 = true ↔ 0 < 1) ∧
       (isTokenNearExpiry (some "") 1 0 = true ↔ 0 + 120000 ≥ 1)) := by decide

/-- C6 (amended): for every credential whose token is a non-empty string and
every current time, the validity predicate returns `true` exactly when
`now < expiry` and the near-expiry predicate returns `true` exactly when
`now + 120000 ≥ expiry` (with a `null` or empty token both return `false`). -/
theorem token_predicates (t : String) (expiry now : Nat) (h : t ≠ "") :
    (isTokenStillValid (some t) expiry now = true ↔ now < expiry) ∧
    (isTokenNearExpiry (some t) expiry now = true ↔ now + 120000 ≥ expiry) := by
  constructor
  · simp [isTokenStillValid, jsStrTruthy, h]
  · simp [isTokenNearExpiry, jsStrTruthy, h]

/-- Witness for `token_predicates` at a concrete non-empty token. -/
theorem token_predicates_witness :
    (isTokenStillValid (some "tok") 10 5 = true ↔ 5 < 10) ∧
    (isTokenNearExpiry (some "tok") 10 5 = true ↔ 5 + 120000 ≥ 10) :=
  token_predicates "tok" 10 5 (by decide)

/-- C7: adding a product whose id already has a cart line merges quantities
into the single existing line (the cart length does not grow), and in the
concrete scenario `add({id:5, price:10}, 2)` then `add({id:5, price:10}, 3)`
from the empty cart the result is exactly one line of quantity 5 with cart
total 50. -/
theorem cart_merge_by_id :
    (∀ (cart : List CartItem) (now : Nat) (p : CartProduct) (q : ℤ),
      (cart.any fun it => it.product.id = p.id) = true →
      ((addToCart cart now p q).cart).length = cart.length) ∧
    (addToCart (addToCart [] 0 p5 2).cart 0 p5 3).cart =
      [{ product := p5, quantity := 5, addedAt := some 0 }] ∧
    getCartTotal (addToCart (addToCart [] 0 p5 2).cart 0 p5 3).cart = 50 := by
  refine ⟨?_, by decide, by norm_num [getCartTotal, addToCart, bumpFirstQty, p5]⟩
  intro cart now p q h
  simp [addToCart, h, bumpFirstQty_length]

/-- Witness for the merge conjunct of `cart_merge_by_id`. -/
theorem cart_merge_by_id_witness :
    ((addToCart c9Cart 0 { id := 1, name := "A", price := 2 } 4).cart).length =
      c9Cart.length :=
  cart_merge_by_id.1 c9Cart 0 { id := 1, name := "A", price := 2 } 4 (by decide)

/-- C9: calling `updateCartQuantity` with a product id that matches no cart
line leaves the cart unchanged and produces no published state and no
storage write. -/
theorem updateCartQuantity_frame (cart : List CartItem) (pid : Nat) (q : ℤ)
    (h : ∀ it ∈ cart, it.product.id ≠ pid) :
    updateCartQuantity cart pid q = ⟨cart, [], []⟩ := by
  have hany : (cart.any fun it => it.product.id = pid) = false := by
    rw [List.any_eq_false]
    intro it hit
    simpa using h it hit
  simp [updateCartQuantity, hany]

/-- Witness for `updateCartQuantity_frame` on a concrete cart. -/
theorem updateCartQuantity_frame_witness :
    updateCartQuantity c9Cart 2 7 = ⟨c9Cart, [], []⟩ :=
  updateCartQuantity_frame c9Cart 2 7 (by decide)

/-- C3: when the wrapped request fails with status 401 and no refresh is in
flight, the wrapper performs exactly one forced refresh and exactly one
retry, resolving with the retry's outcome (a retry failure, of any kind,
propagates unchanged); a non-401 failure, or a 401 while a refresh is in
flight, propagates unchanged with no refresh and no retry; a success needs
one request only. -/
theorem authRequest_retry (α : Type) (firstReq retryReq : Except JsError α)
    (refreshOutcome : Except JsError Unit) (e : JsError) :
    (firstReq = .error e → e.status = some 401 →
      makeAuthenticatedRequest (.ok ()) firstReq false refreshOutcome retryReq =
        ⟨(match refreshOutcome with | .ok _ => retryReq | .error re => .error re),
         (match refreshOutcome with | .ok _ => 2 | .error _ => 1), 1⟩) ∧
    (firstReq = .error e → ¬ e.status = some 401 →
      makeAuthenticatedRequest (.ok ()) firstReq false refreshOutcome retryReq =
        ⟨.error e, 1, 0⟩) ∧
    (firstReq = .error e →
      makeAuthenticatedRequest (.ok ()) firstReq true refreshOutcome retryReq =
        ⟨.error e, 1, 0⟩) ∧
    (∀ v, firstReq = .ok v →
      makeAuthenticatedRequest (.ok ()) firstReq false refreshOutcome retryReq =
        ⟨.ok v, 1, 0⟩) := by
  refine ⟨?_, ?_, ?_, ?_⟩
  · intro h h401
    subst h
    simp [makeAuthenticatedRequest, h401]
    cases refreshOutcome <;> rfl
  · intro h h401
    subst h
    simp [makeAuthenticatedRequest, h401]
  · intro h
    subst h
    simp [makeAuthenticatedRequest]
  · intro v h
    subst h
    simp [makeAuthenticatedRequest]

/-- Witness for `authRequest_retry`: a 401 first call, a successful refresh
and a successful retry. -/
theorem authRequest_retry_witness :
    makeAuthenticatedRequest (α := ℚ) (.ok ()) (.error (.http 401)) false (.ok ()) (.ok 7) =
      ⟨.ok 7, 2, 1⟩ :=
  (authRequest_retry ℚ (.error (.http 401)) (.ok 7) (.ok ()) (.http 401)).1 rfl rfl

/-- C2: evaluating the coalescing scenario on the code: from a fresh service
two concurrent `ensureAuthenticated` callers trigger exactly one `login`
call, the login succeeds, caller A resolves — but caller B, which arrived
while the refresh was in flight, fails immediately (the `BehaviorSubject`
replays its stale `false` and the token was just cleared), contradicting the
claim that all callers resolve consistently with the single login's outcome. -/
theorem refresh_coalescing_scenario :
    coalesceScenario.finalState.loginCallsIssued = 1 ∧
    coalesceScenario.loginSucceeded = true ∧
    coalesceScenario.callerA = .resolved ∧
    coalesceScenario.callerB = .failed := by decide

theorem extractPrice_eq_tail (r : ℚ) (p : ApiProduct)
    (hnone : ∀ lps, p.locationPrices = some lps → locScan lps = none) :
    extractPriceEnhanced r p = extractPriceTail r p := by
  simp only [extractPriceEnhanced]
  rcases hl : p.locationPrices with _ | lps
  · rfl
  · by_cases he : lps = []
    · simp [he]
    · simp [he, hnone lps hl]

/-- C4: the price-resolution priority order: a hit while scanning the
per-location price list wins over everything; otherwise a positive numeric
product-level `unitPriceWithVat` wins; otherwise the first positive numeric
or numeric-parseable value among the direct price fields is used — each hit
two-decimal rounded; and the sample product with
`locationPrices[0].unitPriceWithVat = 12.345` and `price = 99` resolves to
12.35, not 99. -/
theorem extractPrice_priority (r : ℚ) (p : ApiProduct) (v : ℚ) :
    (∀ lps, p.locationPrices = some lps → locScan lps = some v →
      extractPriceEnhanced r p = round2 v) ∧
    ((∀ lps, p.locationPrices = some lps → locScan lps = none) →
      posNum p.unitPriceWithVat = some v → extractPriceEnhanced r p = round2 v) ∧
    ((∀ lps, p.locationPrices = some lps → locScan lps = none) →
      posNum p.unitPriceWithVat = none → priceFieldsScan p = some v →
      extractPriceEnhanced r p = round2 v) ∧
    extractPriceEnhanced r c4Sample = 247/20 := by
  refine ⟨?_, ?_, ?_, ?_⟩
  · intro lps hl hscan
    simp only [extractPriceEnhanced]
    rw [hl]
    cases lps with
    | nil => simp [locScan] at hscan
    | cons a as => simp [hscan]
  · intro hnone hpos
    rw [extractPrice_eq_tail r p hnone]
    unfold extractPriceTail
    rw [hpos]
  · intro hnone hpos hscan
    rw [extractPrice_eq_tail r p hnone]
    unfold extractPriceTail
    rw [hpos, hscan]
  · norm_num [extractPriceEnhanced, c4Sample, c4Loc, locScan, posNum, round2, jsRound,
      Int.floor_eq_iff]

/-- Witness for `extractPrice_priority`: the location-scan conjunct applied
to the sample product. -/
theorem extractPrice_priority_witness :
    extractPriceEnhanced 0 c4Sample = round2 (2469/200) :=
  (extractPrice_priority 0 c4Sample (2469/200)).1 [some c4Loc] rfl
    (by norm_num [locScan, posNum, c4Loc])

/-- C5: the resolved category always lies in the closed set
`{burgers, chicken, sides, drinks, desserts, other}`, the keyword sets are
evaluated in that fixed order over the concatenated name+category+alias
search text, and `other` is returned exactly when no keyword set matches. -/
theorem mapApiCategory_closed (p : ApiProduct) :
    (mapApiCategory p = "burgers" ∨ mapApiCategory p = "chicken" ∨
     mapApiCategory p = "sides" ∨ mapApiCategory p = "drinks" ∨
     mapApiCategory p = "desserts" ∨ mapApiCategory p = "other") ∧
    (burgersKw (categorySearchText p) = true → mapApiCategory p = "burgers") ∧
    (burgersKw (categorySearchText p) = false →
      chickenKw (categorySearchText p) = true → mapApiCategory p = "chicken") ∧
    (burgersKw (categorySearchText p) = false →
      chickenKw (categorySearchText p) = false →
      sidesKw (categorySearchText p) = true → mapApiCategory p = "sides") ∧
    (burgersKw (categorySearchText p) = false →
      chickenKw (categorySearchText p) = false →
      sidesKw (categorySearchText p) = false →
      drinksKw (categorySearchText p) = true → mapApiCategory p = "drinks") ∧
    (burgersKw (categorySearchText p) = false →
      chickenKw (categorySearchText p) = false →
      sidesKw (categorySearchText p) = false →
      drinksKw (categorySearchText p) = false →
      dessertsKw (categorySearchText p) = true → mapApiCategory p = "desserts") ∧
    (burgersKw (categorySearchText p) = false →
      chickenKw (categorySearchText p) = false →
      sidesKw (categorySearchText p) = false →
      drinksKw (categorySearchText p) = false →
      dessertsKw (categorySearchText p) = false → mapApiCategory p = "other") := by
  refine ⟨?_, ?_, ?_, ?_, ?_, ?_, ?_⟩
  · simp only [mapApiCategory]
    split_ifs <;> simp
  all_goals intros; simp_all [mapApiCategory]

/-- Witness for `mapApiCategory_closed`: the chicken conjunct at the sample
product. -/
theorem mapApiCategory_closed_witness : mapApiCategory c5Sample = "chicken" :=
  (mapApiCategory_closed c5Sample).2.2.1 (by decide) (by decide)

theorem round2_nonneg (q : ℚ) (h : 0 ≤ q) : 0 ≤ round2 q := by
  unfold round2 jsRound
  have hf : (0:ℤ) ≤ ⌊q * 100 + 1/2⌋ := by
    apply Int.le_floor.mpr
    push_cast
    nlinarith
  exact div_nonneg (by exact_mod_cast hf) (by norm_num)

theorem round2_pos (q : ℚ) (h : 1 ≤ q) : 0 < round2 q := by
  unfold round2 jsRound
  have hf : (1:ℤ) ≤ ⌊q * 100 + 1/2⌋ := by
    apply Int.le_floor.mpr
    push_cast
    nlinarith
  apply div_pos _ (by norm_num)
  exact_mod_cast lt_of_lt_of_le zero_lt_one hf

theorem posNum_pos {v : Option JsVal} {q : ℚ} (h : posNum v = some q) : 0 < q := by
  unfold posNum at h
  split at h
  next =>
    split at h
    next h0 => injection h with h; subst h; exact h0
    next => simp at h
  next => simp at h

theorem fieldPosVal_pos {v : Option JsVal} {q : ℚ} (h : fieldPosVal v = some q) : 0 < q := by
  unfold fieldPosVal at h
  split at h
  next =>
    split at h
    next h0 => injection h with h; subst h; exact h0
    next => simp at h
  next =>
    split at h
    next =>
      split at h
      next h0 => injection h with h; subst h; exact h0
      next => simp at h
    next => simp at h
  next => simp at h

theorem priceFieldsScan_pos {p : ApiProduct} {q : ℚ} (h : priceFieldsScan p = some q) :
    0 < q := by
  unfold priceFieldsScan at h
  rcases h1 : fieldPosVal p.price with _ | q1
  · rw [h1] at h
    simp only [Option.orElse] at h
    rcases h2 : fieldPosVal p.unitPrice with _ | q2
    · rw [h2] at h
      simp only [Option.orElse] at h
      rcases h3 : fieldPosVal p.cost with _ | q3
      · rw [h3] at h
        simp only [Option.orElse] at h
        rcases h4 : fieldPosVal p.amount with _ | q4
        · rw [h4] at h
          simp only [Option.orElse] at h
          exact fieldPosVal_pos h
        · rw [h4] at h
          simp only [Option.orElse, Option.some.injEq] at h
          subst h
          exact fieldPosVal_pos h4
      · rw [h3] at h
        simp only [Option.orElse, Option.some.injEq] at h
        subst h
        exact fieldPosVal_pos h3
    · rw [h2] at h
      simp only [Option.orElse, Option.some.injEq] at h
      subst h
      exact fieldPosVal_pos h2
  · rw [h1] at h
    simp only [Option.orElse, Option.some.injEq] at h
    subst h
    exact fieldPosVal_pos h1

theorem locScan_pos : ∀ (lps : List (Option LocRec)) (q : ℚ),
    locScan lps = some q → 0 < q := by
  intro lps
  induction lps with
  | nil => intro q h; simp [locScan] at h
  | cons a as ih =>
    intro q h
    cases a with
    | none => exact ih q h
    | some lp =>
      unfold locScan at h
      rcases h1 : posNum lp.unitPriceWithVat with _ | q1
      · rw [h1] at h
        rcases h2 : posNum lp.price with _ | q2
        · rw [h2] at h; exact ih q h
        · rw [h2] at h; injection h with h; subst h; exact posNum_pos h2
      · rw [h1] at h; injection h with h; subst h; exact posNum_pos h1

theorem basePricesFor_bounds (c : String) :
    5 ≤ (basePricesFor c).1 ∧ (basePricesFor c).1 ≤ (basePricesFor c).2 := by
  unfold basePricesFor
  split_ifs <;> norm_num

theorem generateCategoryBasedPrice_pos (r : ℚ) (p : ApiProduct) (hr : 0 ≤ r) :
    0 < generateCategoryBasedPrice r p := by
  have hb := basePricesFor_bounds (mapApiCategory p)
  simp only [generateCategoryBasedPrice]
  apply round2_pos
  split_ifs <;> nlinarith [hb.1, hb.2]

/-- C10 counterexample: the payload `{price: 0.001}` passes the positive-value
guard, but two-decimal rounding takes it to 0, so the resolved price is not
strictly positive. -/
theorem extractPrice_positivity_cex : ¬ (0 < extractPriceEnhanced 0 c10Bad) := by
  norm_num [extractPriceEnhanced, c10Bad, extractPriceTail, posNum, priceFieldsScan,
    fieldPosVal, locScan, round2, jsRound, Int.floor_eq_iff, Option.orElse]

/-- C10 (amended): for every product payload and random draw `r ≥ 0`, the
resolved price is nonnegative, and the category-based fallback price is
strictly positive (its range minima are at least 5 and its multiplier at
least 0.7); strict positivity of extracted prices fails only for accepted
values below 0.005, which round to zero. -/
theorem extractPrice_nonneg (r : ℚ) (p : ApiProduct) (hr : 0 ≤ r) :
    0 ≤ extractPriceEnhanced r p ∧ 0 < generateCategoryBasedPrice r p := by
  refine ⟨?_, generateCategoryBasedPrice_pos r p hr⟩
  have tail : 0 ≤ extractPriceTail r p := by
    unfold extractPriceTail
    rcases h1 : posNum p.unitPriceWithVat with _ | q1
    · rcases h2 : priceFieldsScan p with _ | q2
      · exact le_of_lt (generateCategoryBasedPrice_pos r p hr)
      · exact round2_nonneg q2 (le_of_lt (priceFieldsScan_pos h2))
    · exact round2_nonneg q1 (le_of_lt (posNum_pos h1))
  simp only [extractPriceEnhanced]
  rcases hl : p.locationPrices with _ | lps
  · exact tail
  · by_cases he : lps = []
    · simpa [he] using tail
    · rcases hs : locScan lps with _ | q
      · simpa [he, hs] using tail
      · simpa [he, hs] using round2_nonneg q (le_of_lt (locScan_pos lps q hs))

/-- Witness for `extractPrice_nonneg` at the sub-0.005 sample. -/
theorem extractPrice_nonneg_witness :
    0 ≤ extractPriceEnhanced 0 c10Bad ∧ 0 < generateCategoryBasedPrice 0 c10Bad :=
  extractPrice_nonneg 0 c10Bad le_rfl

/-- C8: the selling-products listing locates the product array by trying, in
order, `payload.records`, `payload` itself, the response root, then `data`,
using the first array-typed candidate; a response with no array-typed
candidate, and any failed request, yields the empty list. -/
theorem getSellingProducts_locating (rng : Nat → Rand) (resp : SellResp)
    (e : JsError) (xs : List ApiProduct) :
    (asArr ((resp.getPayload).bind SellResp.getRecords) = some xs →
      getSellingProducts rng (.ok resp) = processProductsCaught rng xs) ∧
    (asArr ((resp.getPayload).bind SellResp.getRecords) = none →
      asArr resp.getPayload = some xs →
      getSellingProducts rng (.ok resp) = processProductsCaught rng xs) ∧
    (asArr ((resp.getPayload).bind SellResp.getRecords) = none →
      asArr resp.getPayload = none → asArr (some resp) = some xs →
      getSellingProducts rng (.ok resp) = processProductsCaught rng xs) ∧
    (asArr ((resp.getPayload).bind SellResp.getRecords) = none →
      asArr resp.getPayload = none → asArr (some resp) = none →
      asArr resp.getData = some xs →
      getSellingProducts rng (.ok resp) = processProductsCaught rng xs) ∧
    (asArr ((resp.getPayload).bind SellResp.getRecords) = none →
      asArr resp.getPayload = none → asArr (some resp) = none →
      asArr resp.getData = none →
      getSellingProducts rng (.ok resp) = []) ∧
    getSellingProducts rng (.error e) = [] := by
  refine ⟨?_, ?_, ?_, ?_, ?_, rfl⟩ <;>
    · intros
      simp_all [getSellingProducts, sellingRawProducts, processProductsCaught,
        processProducts] <;> rfl

/-- Witness for `getSellingProducts_locating`: a `payload.records` array. -/
theorem getSellingProducts_locating_witness :
    getSellingProducts rng0 (.ok c8Resp) = processProductsCaught rng0 [c8Prod] :=
  (getSellingProducts_locating rng0 c8Resp (.plain "x") [c8Prod]).1 rfl

theorem digitChar_isDigit (d : Nat) (h : d < 10) :
    (Char.ofNat (48 + d)).isDigit = true := by
  interval_cases d <;> decide

theorem natDigits_ne_nil (n : Nat) : natDigits n ≠ [] := by
  unfold natDigits
  split <;> simp

theorem natDigits_all_digit (n : Nat) : ∀ c ∈ natDigits n, c.isDigit = true := by
  induction n using Nat.strong_induction_on with
  | _ n ih =>
    unfold natDigits
    split
    next h =>
      intro c hc
      simp only [List.mem_singleton] at hc
      subst hc
      exact digitChar_isDigit n h
    next h =>
      intro c hc
      rcases List.mem_append.mp hc with h1 | h1
      · exact ih (n / 10) (Nat.div_lt_self (by omega) (by omega)) c h1
      · simp only [List.mem_singleton] at h1
        subst h1
        exact digitChar_isDigit (n % 10) (Nat.mod_lt _ (by omega))

theorem natDigits_length_ge (k : Nat) : ∀ n, 10 ^ k ≤ n → k + 1 ≤ (natDigits n).length := by
  induction k with
  | zero =>
    intro n _
    have h1 := natDigits_ne_nil n
    have h2 := List.length_pos.mpr h1
    omega
  | succ k ih =>
    intro n h
    have hp : 1 ≤ 10 ^ k := Nat.one_le_pow _ _ (by omega)
    have h10 : 10 ≤ n := by
      have hx : 10 ^ k * 10 ≤ n := by rw [← pow_succ]; exact h
      omega
    unfold natDigits
    split
    next hlt => omega
    next hlt =>
      rw [List.length_append]
      have hdiv : 10 ^ k ≤ n / 10 := by
        rw [Nat.le_div_iff_mul_le (by omega)]
        calc 10 ^ k * 10 = 10 ^ (k + 1) := by rw [pow_succ]
        _ ≤ n := h
      have := ih (n / 10) hdiv
      simp only [List.length_singleton]
      omega

theorem natDigits_length_le (k : Nat) : ∀ n, 0 < k → n < 10 ^ k → (natDigits n).length ≤ k := by
  induction k with
  | zero => intro n h _; omega
  | succ k ih =>
    intro n _ hn
    unfold natDigits
    split
    next => simp
    next hlt =>
      rw [List.length_append]
      have hk : 0 < k := by
        by_contra hk0
        have hk1 : k = 0 := by omega
        subst hk1
        norm_num at hn
        omega
      have hdiv : n / 10 < 10 ^ k := by
        rw [Nat.div_lt_iff_lt_mul (by omega)]
        calc n < 10 ^ (k + 1) := hn
        _ = 10 ^ k * 10 := by rw [pow_succ]
      have := ih (n / 10) hk hdiv
      simp only [List.length_singleton]
      omega

theorem generateOrderNumber_data (nowMs randN : Nat) :
    (generateOrderNumber nowMs randN).data =
      'H' :: 'B' :: (jsSliceLast6 (natDigits nowMs) ++ padStart3 (natDigits randN)) := rfl

theorem generateOrderNumber_ne_empty (nowMs randN : Nat) :
    generateOrderNumber nowMs randN ≠ "" := by
  intro h
  have hd := congrArg String.data h
  rw [generateOrderNumber_data] at hd
  simp at hd

theorem generateOrderNumber_form (nowMs randN : Nat)
    (hnow : 100000 ≤ nowMs) (hrand : randN < 1000) :
    fallbackOrderNumberForm (generateOrderNumber nowMs randN) := by
  refine ⟨⟨jsSliceLast6 (natDigits nowMs)⟩, ⟨padStart3 (natDigits randN)⟩, rfl, ?_, ?_, ?_, ?_⟩
  · show (jsSliceLast6 (natDigits nowMs)).length = 6
    unfold jsSliceLast6
    rw [List.length_drop]
    have h5 := natDigits_length_ge 5 nowMs (by norm_num; exact hnow)
    omega
  · show (padStart3 (natDigits randN)).length = 3
    unfold padStart3
    rw [List.length_append, List.length_replicate]
    have h3 := natDigits_length_le 3 randN (by omega) (by norm_num; exact hrand)
    omega
  · intro c hc
    exact natDigits_all_digit nowMs c (List.drop_subset _ _ hc)
  · intro c hc
    rcases List.mem_append.mp hc with h1 | h1
    · have h0 := List.eq_of_mem_replicate h1
      subst h0
      decide
    · exact natDigits_all_digit randN c h1

/-- C1: for every settled outcome of the order submission (with the realistic
side conditions that the epoch timestamp has at least six digits and the
random draw is below 1000), the produced `OrderResponse` carries a non-empty
order number, and on any failure the response is the synthesized fallback
with `isOffline = true` and an order number of the form `'HB'` + 6 digits +
3 zero-padded digits. -/
theorem createOrder_total (nowMs randN : Nat) (nowIso : String)
    (outcome : Except JsError (Option RemoteOrderResp))
    (hnow : 100000 ≤ nowMs) (hrand : randN < 1000) :
    (createOrder nowMs randN nowIso outcome).data.orderNumber ≠ "" ∧
    ∀ e, outcome = .error e →
      (createOrder nowMs randN nowIso outcome).isOffline = some true ∧
      fallbackOrderNumberForm ((createOrder nowMs randN nowIso outcome).data.orderNumber) := by
  constructor
  · cases outcome with
    | error e => exact generateOrderNumber_ne_empty nowMs randN
    | ok resp =>
      cases resp with
      | none => exact generateOrderNumber_ne_empty nowMs randN
      | some r =>
        show (processOrderResponse nowMs randN nowIso (some r)).data.orderNumber ≠ ""
        simp only [processOrderResponse]
        cases hod : extractOrderData r with
        | none => exact generateOrderNumber_ne_empty nowMs randN
        | some od =>
          show jsStrOr od.orderNumber (generateOrderNumber nowMs randN) ≠ ""
          cases od.orderNumber with
          | none => exact generateOrderNumber_ne_empty nowMs randN
          | some s =>
            show (if s = "" then generateOrderNumber nowMs randN else s) ≠ ""
            split
            next => exact generateOrderNumber_ne_empty nowMs randN
            next hs => exact hs
  · intro e he
    subst he
    exact ⟨rfl, generateOrderNumber_form nowMs randN hnow hrand⟩

/-- Witness for `createOrder_total` at a concrete failing-transport input. -/
theorem createOrder_total_witness :
    (createOrder 123456 7 "t" (.error (.plain "network"))).data.orderNumber ≠ "" ∧
    (createOrder 123456 7 "t" (.error (.plain "network"))).isOffline = some true ∧
    fallbackOrderNumberForm
      ((createOrder 123456 7 "t" (.error (.plain "network"))).data.orderNumber) := by
  have h := createOrder_total 123456 7 "t" (.error (.plain "network"))
    (by norm_num) (by norm_num)
  exact ⟨h.1, (h.2 (.plain "network") rfl).1, (h.2 (.plain "network") rfl).2⟩

end Hesburger
